import Mathlib

/-! # Frequency Mute plugin (server side): embedding and verified properties

Shallow embedding of `FrequencyMute/pluginFrequencyMute_server.js`.

Modelling conventions.
* JavaScript numbers are exact rationals (`ℚ`); IEEE rounding, NaN and the
  infinities are not represented.
* The module level `let` variables become the fields of `State`; every function
  of the module becomes a function that takes the state and returns the new one.
* Effects are recorded in the state: `emitted` lists the commands handed to
  `sendCommandToClient`, `textSent` the payloads written on the `/text` socket,
  `extraSent` the status messages written on the `/data_plugins` socket,
  `fileWrites` the documents written to `FrequencyMute.json`, `connects` the
  end points of every socket that was constructed, `handlers` the handler
  properties assigned to sockets, `timers` the calls of `setTimeout` that
  schedule a reconnect.  Log lines are not recorded.
* `sendCommandToClient` is `async`; its body up to `await TextWebSocket()` runs
  at the call and the rest at the end of the current job.  No statement that
  runs in between changes `disablePlugin` or `textSocket`, so the continuation
  is executed in place.
-/

namespace FrequencyMute

/-! ## Data model -/

/-- Ready state of a WebSocket (`WebSocket.CONNECTING` ... `WebSocket.CLOSED`). -/
inductive ReadyState
  | CONNECTING
  | OPEN
  | CLOSING
  | CLOSED
deriving DecidableEq, Repr

/-- Element of `mutedFrequencies`: `{ freq, mode }`. -/
structure FreqItem where
  freq : ℚ
  mode : String
deriving DecidableEq, Repr

/-- Payload of a `frequency-mute` message: `value.status` and `value.frequency`. -/
structure StatusMessage where
  status : String
  frequency : ℚ
deriving DecidableEq, Repr

/-- Value found under a key of the parsed configuration object: the key is
absent, holds JSON `null`, or holds a value of the documented type. -/
inductive Field (α : Type)
  | absent
  | null
  | val (a : α)
deriving DecidableEq, Repr

/-- Value of the `mode` key of an object entry: absent, a string, or a value
that is not a string (of which only the truthiness matters). -/
inductive ModeField
  | absent
  | text (s : String)
  | nonText (truthy : Bool)
deriving DecidableEq, Repr

/-- Element of the `frequencies` array as `JSON.parse` delivers it: a number, an
object (with the `freq` key present or not), `null`, or anything else (string,
boolean, array). -/
inductive Entry
  | number (q : ℚ)
  | object (freq : Option ℚ) (mode : ModeField)
  | null
  | other
deriving DecidableEq, Repr

/-- Parsed configuration object (`configData`), restricted to the six keys the
plugin reads. -/
structure ConfigData where
  frequencies : Field (List Entry)
  tolerance : Field ℚ
  limitManualBandwidth : Field Bool
  maxManualBandwidth : Field ℚ
  bandwidthInterceptValue : Field String
  disablePlugin : Field Bool
deriving DecidableEq, Repr

/-- Keys of `defaultSettings`. -/
inductive Key
  | frequencies
  | tolerance
  | limitManualBandwidth
  | maxManualBandwidth
  | bandwidthInterceptValue
  | disablePlugin
deriving DecidableEq, Repr

/-- Module state: the `const` and `let` variables of the module together with
the recorded effects. -/
structure State where
  startupVolume : ℚ
  textSocket : Option ReadyState
  extraSocket : Option ReadyState
  currentFrequency : ℚ
  currentFrequencyRounded : ℚ
  previousFrequencyRounded : ℚ
  mutedFrequencies : List FreqItem
  freqTolerance : ℚ
  limitManualBandwidth : Bool
  maxManualBandwidth : ℚ
  bandwidthInterceptValue : String
  disablePlugin : Bool
  currentStatus : String
  isMuted : Bool
  emitted : List String
  textSent : List String
  extraSent : List StatusMessage
  fileWrites : List ConfigData
  connects : List String
  handlers : List String
  timers : List (String × ℕ)
deriving DecidableEq, Repr

/-- Values of the module variables right after the declarations (lines 34-45),
for a given `startupVolume`. -/
def initialState (startupVolume : ℚ) : State where
  startupVolume := startupVolume
  textSocket := none
  extraSocket := none
  currentFrequency := 0
  currentFrequencyRounded := 0
  previousFrequencyRounded := 0
  mutedFrequencies := []
  freqTolerance := 0.05
  limitManualBandwidth := false
  maxManualBandwidth := 151
  bandwidthInterceptValue := "W"
  disablePlugin := false
  currentStatus := "normal"
  isMuted := false
  emitted := []
  textSent := []
  extraSent := []
  fileWrites := []
  connects := []
  handlers := []
  timers := []

/-! ## Number formatting -/

/-- Nearest integer of a non-negative number, the larger one on a tie (the
integer `n` picked by `Number.prototype.toFixed`). -/
def nearestInt (x : ℚ) : ℤ := ⌊x + 1 / 2⌋

/-- Models `x.toFixed(0)` for `|x| < 1e21`: a negative number is negated first
and its digits get a leading minus sign. -/
def toFixed0 (x : ℚ) : String :=
  if x < 0 then "-" ++ toString (nearestInt (-x)) else toString (nearestInt x)

/-- Models `Number(x.toFixed(2))`: rounding to two decimal places. -/
def toFixed2 (x : ℚ) : ℚ :=
  if x < 0 then -((nearestInt (-x * 100) : ℚ) / 100) else (nearestInt (x * 100) : ℚ) / 100

/-! ## Status resolution -/

/-- Helper function to get status from mode. -/
def getStatusFromMode (mode : String) : String :=
  if mode = "A" then "attenuated"
  else if mode = "S" then "attenuated_s"
  else if mode = "D" then "attenuated_d"
  else if mode = "M" then "muted"
  else "muted"

/-- Slack added to the tolerance (`const epsilon = 0.001`). -/
def epsilon : ℚ := 0.001

/-- The `for ... of mutedFrequencies` loop with its `break`, as written both in
`recheckCurrentFrequency` and in the message listener of `waitForServer`:
returns the final value of `newStatus`. -/
def resolveLoop (frequencyRounded freqTolerance : ℚ) : List FreqItem → String
  | [] => "normal"
  | freqItem :: rest =>
    if |frequencyRounded - freqItem.freq| ≤ freqTolerance + epsilon then
      getStatusFromMode freqItem.mode
    else
      resolveLoop frequencyRounded freqTolerance rest

/-! ## Connections and command dispatch -/

/-- The guarded body of `TextWebSocket`: only when there is no socket or the
current one is `CLOSED`, a socket is constructed (it starts in `CONNECTING`) and
its `onopen`, `onerror` and `onclose` handlers are assigned.  The constructor is
called with a constant well-formed URL and is taken not to throw. -/
def TextWebSocket (s : State) : State :=
  match s.textSocket with
  | none =>
    { s with
      textSocket := some .CONNECTING
      connects := s.connects ++ ["/text"]
      handlers := s.handlers ++ ["/text.onopen", "/text.onerror", "/text.onclose"] }
  | some .CLOSED =>
    { s with
      textSocket := some .CONNECTING
      connects := s.connects ++ ["/text"]
      handlers := s.handlers ++ ["/text.onopen", "/text.onerror", "/text.onclose"] }
  | some _ => s

/-- The guarded body of `ExtraWebSocket`: as `TextWebSocket`, with the four
handlers `onopen`, `onerror`, `onclose` and `onmessage`. -/
def ExtraWebSocket (s : State) : State :=
  match s.extraSocket with
  | none =>
    { s with
      extraSocket := some .CONNECTING
      connects := s.connects ++ ["/data_plugins"]
      handlers := s.handlers ++
        ["/data_plugins.onopen", "/data_plugins.onerror", "/data_plugins.onclose",
          "/data_plugins.onmessage"] }
  | some .CLOSED =>
    { s with
      extraSocket := some .CONNECTING
      connects := s.connects ++ ["/data_plugins"]
      handlers := s.handlers ++
        ["/data_plugins.onopen", "/data_plugins.onerror", "/data_plugins.onclose",
          "/data_plugins.onmessage"] }
  | some _ => s

/-- The close event of the text socket: the socket is `CLOSED` and its `onclose`
handler schedules `TextWebSocket` after 2000 ms. -/
def textSocketClosed (s : State) : State :=
  { s with textSocket := some .CLOSED, timers := s.timers ++ [("TextWebSocket", 2000)] }

/-- The close event of the extra socket: the socket is `CLOSED` and its
`onclose` handler schedules `ExtraWebSocket` after 2000 ms. -/
def extraSocketClosed (s : State) : State :=
  { s with extraSocket := some .CLOSED, timers := s.timers ++ [("ExtraWebSocket", 2000)] }

/-- Models `sendCommand(socket, command, forceUpdate)` on the text socket. -/
def sendCommand (s : State) (command : String) (forceUpdate : Bool) : State :=
  if !s.disablePlugin || forceUpdate then { s with textSent := s.textSent ++ [command] } else s

/-- Models `sendCommandToClient(command, forceUpdate)`; a missing `forceUpdate`
argument is `false`. -/
def sendCommandToClient (s : State) (command : String) (forceUpdate : Bool) : State :=
  let s := TextWebSocket { s with emitted := s.emitted ++ [command] }
  if !s.disablePlugin || forceUpdate then
    if s.textSocket = some .OPEN then sendCommand s command forceUpdate else s
  else s

/-- Send status to client. -/
def sendToClient (s : State) (status : String) (forceUpdate : Bool) : State :=
  if (!s.disablePlugin || forceUpdate) && s.extraSocket = some .OPEN then
    { s with extraSent := s.extraSent ++ [⟨status, s.currentFrequencyRounded⟩] }
  else s

/-- Apply volume change based on status. -/
def applyVolumeChange (s : State) (status : String) (forceUpdate : Bool) : State :=
  if s.disablePlugin && !forceUpdate then s
  else if status = "muted" then
    { sendCommandToClient s ("Y" ++ "0" ++ "\n") false with isMuted := true }
  else if status = "attenuated" then
    sendCommandToClient s ("Y" ++ toFixed0 (s.startupVolume / 1.1 * 100) ++ "\n") false
  else if status = "attenuated_s" then
    sendCommandToClient s ("Y" ++ toFixed0 (s.startupVolume / 1.15 * 100) ++ "\n") false
  else if status = "attenuated_d" then
    sendCommandToClient s ("Y" ++ toFixed0 (s.startupVolume / 1.2 * 100) ++ "\n") false
  else
    { sendCommandToClient s ("Y" ++ toFixed0 (s.startupVolume * 100) ++ "\n") forceUpdate with
      isMuted := false }

/-- Recheck current frequency. -/
def recheckCurrentFrequency (s : State) : State :=
  if s.disablePlugin then
    sendToClient (applyVolumeChange s "normal" true) "normal" true
  else
    let newStatus := resolveLoop s.currentFrequencyRounded s.freqTolerance s.mutedFrequencies
    sendToClient (applyVolumeChange { s with currentStatus := newStatus } newStatus false)
      newStatus false

/-- The `message` listener that `waitForServer` attaches to the text socket.
`data` is the `freq` field of the parsed message, `none` when `JSON.parse`
throws. -/
def onTextMessage (s : State) (data : Option ℚ) : State :=
  match data with
  | none => s
  | some freq =>
    let s := { s with currentFrequency := freq, currentFrequencyRounded := toFixed2 freq }
    if s.currentFrequencyRounded ≠ s.previousFrequencyRounded then
      let newStatus := resolveLoop s.currentFrequencyRounded s.freqTolerance s.mutedFrequencies
      let s :=
        if newStatus ≠ s.currentStatus then
          sendToClient (applyVolumeChange { s with currentStatus := newStatus } newStatus false)
            newStatus false
        else s
      { s with previousFrequencyRounded := s.currentFrequencyRounded }
    else s

/-! ## Configuration store -/

/-- Default settings. -/
def defaultSettings : ConfigData where
  frequencies := .val []
  tolerance := .val 0.05
  limitManualBandwidth := .val false
  maxManualBandwidth := .val 151
  bandwidthInterceptValue := .val "W"
  disablePlugin := .val false

/-- Keys of `defaultSettings` in the order in which `for (const key in
defaultSettings)` visits them. -/
def defaultSettingsKeys : List Key :=
  [.frequencies, .tolerance, .limitManualBandwidth, .maxManualBandwidth,
    .bandwidthInterceptValue, .disablePlugin]

/-- Whether the key holds anything at all, `null` included. -/
def Field.present {α : Type} : Field α → Bool
  | .absent => false
  | .null => true
  | .val _ => true

/-- Models `key in configData`. -/
def ConfigData.hasKey (configData : ConfigData) : Key → Bool
  | .frequencies => configData.frequencies.present
  | .tolerance => configData.tolerance.present
  | .limitManualBandwidth => configData.limitManualBandwidth.present
  | .maxManualBandwidth => configData.maxManualBandwidth.present
  | .bandwidthInterceptValue => configData.bandwidthInterceptValue.present
  | .disablePlugin => configData.disablePlugin.present

/-- Models `configData[key] = source[key]`. -/
def ConfigData.copyKey (configData source : ConfigData) : Key → ConfigData
  | .frequencies => { configData with frequencies := source.frequencies }
  | .tolerance => { configData with tolerance := source.tolerance }
  | .limitManualBandwidth =>
    { configData with limitManualBandwidth := source.limitManualBandwidth }
  | .maxManualBandwidth => { configData with maxManualBandwidth := source.maxManualBandwidth }
  | .bandwidthInterceptValue =>
    { configData with bandwidthInterceptValue := source.bandwidthInterceptValue }
  | .disablePlugin => { configData with disablePlugin := source.disablePlugin }

/-- The loop "check for missing settings and add defaults" over the keys still
to visit: returns the final `configData` and `configModified`. -/
def healLoop (configData : ConfigData) (configModified : Bool) : List Key → ConfigData × Bool
  | [] => (configData, configModified)
  | key :: rest =>
    if !configData.hasKey key then
      healLoop (configData.copyKey defaultSettings key) true rest
    else
      healLoop configData configModified rest

/-- Models `value || fallback` for a numeric key (`0` and `null` are falsy). -/
def numberOr (value : Field ℚ) (fallback : ℚ) : ℚ :=
  match value with
  | .val q => if q = 0 then fallback else q
  | _ => fallback

/-- Models `value || fallback` for a boolean key. -/
def boolOr (value : Field Bool) (fallback : Bool) : Bool :=
  match value with
  | .val true => true
  | _ => fallback

/-- Models `value || fallback` for a string key (the empty string is falsy). -/
def stringOr (value : Field String) (fallback : String) : String :=
  match value with
  | .val str => if str = "" then fallback else str
  | _ => fallback

/-- Models `configData.frequencies || []`. -/
def entriesOr (value : Field (List Entry)) : List Entry :=
  match value with
  | .val items => items
  | _ => []

/-- Modes: M = mute, A = attenuate level 1, S = attenuate level 2, D = attenuate
level 3. -/
def validModes : List String := ["M", "A", "S", "D"]

/-- Models `String.prototype.toUpperCase` on ASCII letters; other characters are
left as they are. -/
def toUpperCase (str : String) : String := String.mk (str.data.map Char.toUpper)

/-- The callback of `rawFrequencies.map`: `.ok none` is the `null` result that
the following `filter` drops, `.error` a thrown `TypeError`. -/
def parseItem : Entry → Except String (Option FreqItem)
  | .number q => .ok (some { freq := q, mode := "M" })
  | .object none _ => .ok none
  | .object (some freq) .absent => .ok (some { freq := freq, mode := "M" })
  | .object (some freq) (.nonText false) => .ok (some { freq := freq, mode := "M" })
  | .object (some _) (.nonText true) => .error "item.mode.toUpperCase is not a function"
  | .object (some freq) (.text itemMode) =>
    let mode := if itemMode = "" then "M" else toUpperCase itemMode
    .ok (some { freq := freq, mode := if validModes.contains mode then mode else "M" })
  | .null => .error "Cannot read properties of null"
  | .other => .ok none

/-- Models `rawFrequencies.map(...).filter(item => item !== null)`: the entries
are parsed in order, the first throw aborts, `null` results are dropped. -/
def parseItems : List Entry → Except String (List FreqItem)
  | [] => .ok []
  | item :: rest =>
    match parseItem item with
    | .error e => .error e
    | .ok parsedItem =>
      match parseItems rest with
      | .error e => .error e
      | .ok parsedRest =>
        .ok (match parsedItem with
          | some freqItem => freqItem :: parsedRest
          | none => parsedRest)

/-- The `catch` block of `loadMutedFrequencies`. -/
def loadFailed (s : State) : State :=
  { s with mutedFrequencies := [], freqTolerance := 0.05 }

/-- Load FrequencyMute.json.  `parsed` is the result of `JSON.parse(rawData)`;
`none` stands for a `try` block that throws before `configData` can be used (the
file cannot be read, the text is not JSON, or the value is a JSON primitive). -/
def loadMutedFrequencies (s : State) (parsed : Option ConfigData) (isReloaded : Bool) : State :=
  match parsed with
  | none => loadFailed s
  | some configData =>
    let healed := healLoop configData false defaultSettingsKeys
    let configData := healed.1
    let s := if healed.2 then { s with fileWrites := s.fileWrites ++ [configData] } else s
    let rawFrequencies := entriesOr configData.frequencies
    let s :=
      { s with
        freqTolerance := numberOr configData.tolerance 0.05
        limitManualBandwidth := boolOr configData.limitManualBandwidth false
        maxManualBandwidth := numberOr configData.maxManualBandwidth 151
        bandwidthInterceptValue := stringOr configData.bandwidthInterceptValue "W"
        disablePlugin := boolOr configData.disablePlugin false }
    match parseItems rawFrequencies with
    | .error _ => loadFailed s
    | .ok items =>
      let s := { s with mutedFrequencies := items }
      if isReloaded && decide (s.currentFrequencyRounded > 0) then recheckCurrentFrequency s
      else s

/-! ## Bandwidth guard -/

/-- Models `receivedData.split('\n')` on the characters of the chunk. -/
def splitLines : List Char → List (List Char)
  | [] => [[]]
  | c :: cs =>
    if c = '\n' then [] :: splitLines cs
    else
      match splitLines cs with
      | line :: lines => (c :: line) :: lines
      | [] => [[c]]

/-- Models `line.startsWith(searchString)`. -/
def startsWith : List Char → List Char → Bool
  | _, [] => true
  | [], _ :: _ => false
  | c :: cs, d :: ds => c == d && startsWith cs ds

/-- Models `text.replace(/\D+$/, '')`: the trailing run of characters other than
`0`-`9` is removed. -/
def stripTrailingNonDigits (text : List Char) : List Char :=
  (text.reverse.dropWhile fun c => !c.isDigit).reverse

/-- Value of a string of decimal digits. -/
def digitsValue (digits : List Char) : ℕ :=
  digits.foldl (fun acc c => 10 * acc + (c.toNat - 48)) 0

/-- String to number conversion on strings of decimal digits, the empty string
included (`Number("") = 0`); `none` is `NaN`.  Strings of any other shape are
not converted by this function. -/
def digitsToNumber (text : String) : Option ℚ :=
  if text.data.all Char.isDigit then some (digitsValue text.data : ℚ) else none

/-- The test `Number(interceptedWData / 1000) > maxManualBandwidth`; `toNumber`
is the string to number conversion of the runtime (`none` is `NaN`, for which
every comparison is false). -/
def exceedsMaximum (toNumber : String → Option ℚ) (interceptedWData : List Char)
    (maxManualBandwidth : ℚ) : Bool :=
  match toNumber (String.mk interceptedWData) with
  | some v => decide (v / 1000 > maxManualBandwidth)
  | none => false

/-- Body of the `if (receivedLine.startsWith(bandwidthInterceptValue))` block,
up to its `break`. -/
def interceptLine (toNumber : String → Option ℚ) (s : State) (receivedLine : List Char) : State :=
  let interceptedWData := (receivedLine.drop 1).filter fun c => c ≠ ' '
  if interceptedWData ≠ [] then
    let interceptedWData := stripTrailingNonDigits interceptedWData
    if !s.disablePlugin &&
        (s.limitManualBandwidth && exceedsMaximum toNumber interceptedWData s.maxManualBandwidth)
    then sendCommandToClient s "W0\n" false
    else s
  else s

/-- The `for (const receivedLine of receivedLines)` loop of the wrapped
`handleData`. -/
def handleDataLoop (toNumber : String → Option ℚ) (s : State) : List (List Char) → State
  | [] => s
  | receivedLine :: rest =>
    if startsWith receivedLine s.bandwidthInterceptValue.data then
      interceptLine toNumber s receivedLine
    else
      handleDataLoop toNumber s rest

/-- The replacement of `datahandlerReceived.handleData`.  The final call of
`originalHandleData` with the unchanged arguments belongs to the host and is
not part of the state. -/
def handleData (toNumber : String → Option ℚ) (s : State) (receivedData : String) : State :=
  handleDataLoop toNumber s (splitLines receivedData.data)

/-! ## Example data -/

/-- Configuration of the scenario of the specification: the single bare rule
`88.0` (mute) and the default values of the other keys. -/
def scenarioConfig : ConfigData := { defaultSettings with frequencies := .val [.number 88.0] }

/-- State after start-up with `startupVolume = 0.8`, both sockets open and
`scenarioConfig` loaded. -/
def scenarioState : State :=
  loadMutedFrequencies
    { initialState 0.8 with textSocket := some .OPEN, extraSocket := some .OPEN }
    (some scenarioConfig) false

/-- State with both sockets open and the bandwidth limit switched on
(`limitManualBandwidth = true`, `maxManualBandwidth = 151`, intercepted letter
`W`). -/
def guardState : State :=
  { initialState 0.8 with
    textSocket := some .OPEN, extraSocket := some .OPEN, limitManualBandwidth := true }

/-! ## Specification side definitions -/

/-- Two configuration objects hold the same value under a key. -/
def ConfigData.sameAt (a b : ConfigData) : Key → Prop
  | .frequencies => a.frequencies = b.frequencies
  | .tolerance => a.tolerance = b.tolerance
  | .limitManualBandwidth => a.limitManualBandwidth = b.limitManualBandwidth
  | .maxManualBandwidth => a.maxManualBandwidth = b.maxManualBandwidth
  | .bandwidthInterceptValue => a.bandwidthInterceptValue = b.bandwidthInterceptValue
  | .disablePlugin => a.disablePlugin = b.disablePlugin

/-- Value of a key after schema healing, in the words of the specification: a
key that is present keeps its value, an absent key gets the default. -/
def Field.orDefault {α : Type} (value fallback : Field α) : Field α :=
  match value with
  | .absent => fallback
  | .null => .null
  | .val a => .val a

/-- Healed configuration object, in the words of the specification. -/
def healedConfig (c : ConfigData) : ConfigData where
  frequencies := c.frequencies.orDefault defaultSettings.frequencies
  tolerance := c.tolerance.orDefault defaultSettings.tolerance
  limitManualBandwidth := c.limitManualBandwidth.orDefault defaultSettings.limitManualBandwidth
  maxManualBandwidth := c.maxManualBandwidth.orDefault defaultSettings.maxManualBandwidth
  bandwidthInterceptValue :=
    c.bandwidthInterceptValue.orDefault defaultSettings.bandwidthInterceptValue
  disablePlugin := c.disablePlugin.orDefault defaultSettings.disablePlugin

theorem TextWebSocket_open_iff (s : State) :
    (TextWebSocket s).textSocket = some .OPEN ↔ s.textSocket = some .OPEN := by
  unfold TextWebSocket
  split <;> simp_all

theorem sendCommandToClient_eq (s : State) (c : String) (f : Bool) :
    sendCommandToClient s c f =
      { s with
        emitted := s.emitted ++ [c]
        textSocket := (TextWebSocket s).textSocket
        connects := (TextWebSocket s).connects
        handlers := (TextWebSocket s).handlers
        textSent :=
          if (!s.disablePlugin || f) && s.textSocket = some .OPEN then s.textSent ++ [c]
          else s.textSent } := by
  unfold sendCommandToClient sendCommand TextWebSocket
  rcases s with
    ⟨sv, ts, es, cf, cfr, pfr, mf, ft, lmb, mmb, biv, dp, cs, im, em, tse, ese, fw, co, hs, tm⟩
  rcases ts with _ | (_ | _ | _ | _) <;> cases dp <;> cases f <;> simp

/-- Fields that `applyVolumeChange` never touches. -/
theorem applyVolumeChange_frame (s : State) (status : String) (f : Bool) :
    (applyVolumeChange s status f).currentStatus = s.currentStatus ∧
    (applyVolumeChange s status f).disablePlugin = s.disablePlugin ∧
    (applyVolumeChange s status f).extraSocket = s.extraSocket ∧
    (applyVolumeChange s status f).extraSent = s.extraSent ∧
    (applyVolumeChange s status f).fileWrites = s.fileWrites ∧
    (applyVolumeChange s status f).mutedFrequencies = s.mutedFrequencies ∧
    (applyVolumeChange s status f).freqTolerance = s.freqTolerance ∧
    (applyVolumeChange s status f).currentFrequencyRounded = s.currentFrequencyRounded ∧
    (applyVolumeChange s status f).previousFrequencyRounded = s.previousFrequencyRounded ∧
    (applyVolumeChange s status f).startupVolume = s.startupVolume := by
  unfold applyVolumeChange
  split_ifs <;> simp [sendCommandToClient_eq]

theorem sendToClient_frame (s : State) (status : String) (f : Bool) :
    (sendToClient s status f).currentStatus = s.currentStatus ∧
    (sendToClient s status f).disablePlugin = s.disablePlugin ∧
    (sendToClient s status f).emitted = s.emitted ∧
    (sendToClient s status f).textSent = s.textSent ∧
    (sendToClient s status f).textSocket = s.textSocket ∧
    (sendToClient s status f).fileWrites = s.fileWrites ∧
    (sendToClient s status f).mutedFrequencies = s.mutedFrequencies ∧
    (sendToClient s status f).freqTolerance = s.freqTolerance ∧
    (sendToClient s status f).currentFrequencyRounded = s.currentFrequencyRounded ∧
    (sendToClient s status f).previousFrequencyRounded = s.previousFrequencyRounded ∧
    (sendToClient s status f).startupVolume = s.startupVolume := by
  unfold sendToClient
  split_ifs <;> simp

/-- C3: with `disablePlugin = true` and `forceUpdate = false`, `applyVolumeChange`
returns the state unchanged for every status: nothing is written on the command
channel (nor handed to it), whatever the state of the channel. -/
theorem applyVolumeChange_disabled_no_write (s : State) (status : String)
    (hd : s.disablePlugin = true) :
    applyVolumeChange s status false = s ∧
    (applyVolumeChange s status false).textSent = s.textSent ∧
    (applyVolumeChange s status false).emitted = s.emitted := by
  have h : applyVolumeChange s status false = s := by simp [applyVolumeChange, hd]
  rw [h]
  exact ⟨rfl, rfl, rfl⟩

/-- C3 (witness): disabled plugin, open channel, status muted: no write. -/
theorem applyVolumeChange_disabled_no_write_witness :
    (applyVolumeChange
      { initialState 0.8 with disablePlugin := true, textSocket := some .OPEN }
      "muted" false).textSent = [] :=
  (applyVolumeChange_disabled_no_write
    { initialState 0.8 with disablePlugin := true, textSocket := some .OPEN } "muted" rfl).2.1

theorem scenarioState_eq :
    scenarioState =
      { initialState 0.8 with
        textSocket := some .OPEN, extraSocket := some .OPEN
        mutedFrequencies := [⟨88.0, "M"⟩] } := by
  simp [scenarioState, scenarioConfig, loadMutedFrequencies, healLoop, defaultSettingsKeys,
    ConfigData.hasKey, Field.present, defaultSettings, entriesOr, numberOr, boolOr, stringOr,
    parseItems, parseItem, initialState]

/-- The change gate of the telemetry listener: when the re-resolution yields the
current status, the listener hands no command to the command channel. -/
theorem onTextMessage_same_status_no_command (s : State) (freq : ℚ)
    (h : resolveLoop (toFixed2 freq) s.freqTolerance s.mutedFrequencies = s.currentStatus) :
    (onTextMessage s (some freq)).emitted = s.emitted ∧
    (onTextMessage s (some freq)).textSent = s.textSent := by
  simp only [onTextMessage]
  split_ifs <;> simp_all

/-- C5 (code at the failing input): the scenario state is tuned to 88.02 (status
muted, one `Y0\n`); reloading the unchanged configuration resolves to the same
status `muted`, and `recheckCurrentFrequency` emits `Y0\n` a second time. -/
theorem reload_same_status_emits_again :
    (onTextMessage scenarioState (some 88.02)).currentStatus = "muted" ∧
    (onTextMessage scenarioState (some 88.02)).emitted = ["Y0\n"] ∧
    resolveLoop (onTextMessage scenarioState (some 88.02)).currentFrequencyRounded 0.05
      [⟨88.0, "M"⟩] = "muted" ∧
    (loadMutedFrequencies (onTextMessage scenarioState (some 88.02))
      (some scenarioConfig) true).currentStatus = "muted" ∧
    (loadMutedFrequencies (onTextMessage scenarioState (some 88.02))
      (some scenarioConfig) true).emitted = ["Y0\n", "Y0\n"] ∧
    (loadMutedFrequencies (onTextMessage scenarioState (some 88.02))
      (some scenarioConfig) true).textSent = ["Y0\n", "Y0\n"] := by
  have h2 : toFixed2 88.02 = 88.02 := by norm_num [toFixed2, nearestInt]
  have hr : resolveLoop 88.02 0.05 [⟨88.0, "M"⟩] = "muted" := by
    norm_num +decide [resolveLoop, epsilon, getStatusFromMode, abs_le]
  have h1 : onTextMessage scenarioState (some 88.02) =
      { initialState 0.8 with
        textSocket := some .OPEN, extraSocket := some .OPEN
        mutedFrequencies := [⟨88.0, "M"⟩]
        currentFrequency := 88.02, currentFrequencyRounded := 88.02
        previousFrequencyRounded := 88.02
        currentStatus := "muted", isMuted := true
        emitted := ["Y0\n"], textSent := ["Y0\n"]
        extraSent := [⟨"muted", 88.02⟩] } := by
    rw [scenarioState_eq]
    simp only [onTextMessage, h2]
    norm_num +decide [initialState, applyVolumeChange, sendCommandToClient_eq, sendToClient,
      TextWebSocket, resolveLoop, epsilon, getStatusFromMode, abs_le]
  rw [h1]
  refine ⟨rfl, rfl, hr, ?_, ?_, ?_⟩ <;>
  · simp only [scenarioConfig, loadMutedFrequencies, healLoop, defaultSettingsKeys,
      ConfigData.hasKey, Field.present, defaultSettings, entriesOr, numberOr, boolOr, stringOr,
      parseItems, parseItem, initialState, recheckCurrentFrequency]
    norm_num +decide [applyVolumeChange, sendCommandToClient_eq, sendToClient,
      TextWebSocket, resolveLoop, epsilon, getStatusFromMode, abs_le]


theorem handleDataLoop_find (toNumber : String → Option ℚ) (s : State)
    (lines : List (List Char)) :
    handleDataLoop toNumber s lines =
      match lines.find? fun l => startsWith l s.bandwidthInterceptValue.data with
      | some l => interceptLine toNumber s l
      | none => s := by
  induction lines with
  | nil => rfl
  | cons l rest ih =>
    by_cases h : startsWith l s.bandwidthInterceptValue.data = true
    · simp [handleDataLoop, List.find?, h]
    · simp [handleDataLoop, List.find?, h, ih]

/-- C6 (amended): for a received line that starts with the configured letter,
let `w` be the line without its first character and without spaces, and `v` the
number read from `w` stripped of its trailing non-digit characters.  The guard
hands `W0\n` to the command channel exactly once if `w` is not empty, the plugin
is not disabled, `limitManualBandwidth` is true and `v / 1000 >
maxManualBandwidth`; otherwise it hands nothing. -/
theorem guard_line (toNumber : String → Option ℚ) (s : State) (line : List Char)
    (rest : List (List Char))
    (hp : startsWith line s.bandwidthInterceptValue.data = true) :
    ((((line.drop 1).filter fun c => c ≠ ' ') ≠ [] ∧ s.disablePlugin = false ∧
        s.limitManualBandwidth = true ∧
        ∃ v, toNumber (String.mk (stripTrailingNonDigits
            ((line.drop 1).filter fun c => c ≠ ' '))) = some v ∧
          v / 1000 > s.maxManualBandwidth) →
      (handleDataLoop toNumber s (line :: rest)).emitted = s.emitted ++ ["W0\n"]) ∧
    (¬ (((line.drop 1).filter fun c => c ≠ ' ') ≠ [] ∧ s.disablePlugin = false ∧
        s.limitManualBandwidth = true ∧
        ∃ v, toNumber (String.mk (stripTrailingNonDigits
            ((line.drop 1).filter fun c => c ≠ ' '))) = some v ∧
          v / 1000 > s.maxManualBandwidth) →
      (handleDataLoop toNumber s (line :: rest)).emitted = s.emitted) := by
  simp only [handleDataLoop, hp, if_true, interceptLine]
  generalize ((line.drop 1).filter fun c => c ≠ ' ') = w
  constructor
  · rintro ⟨hw, hd, hl, v, hv, hgt⟩
    have he : exceedsMaximum toNumber (stripTrailingNonDigits w) s.maxManualBandwidth = true := by
      simp [exceedsMaximum, hv, hgt]
    rw [if_pos hw, hd, hl, he]
    simp [sendCommandToClient_eq]
  · intro hn
    by_cases hw : w = []
    · rw [if_neg (not_not.mpr hw)]
    · rw [if_pos hw]
      split_ifs with hc
      · exfalso
        apply hn
        simp only [Bool.and_eq_true, Bool.not_eq_true', exceedsMaximum] at hc
        obtain ⟨hd, hl, he⟩ := hc
        refine ⟨hw, hd, hl, ?_⟩
        split at he
        · next v hv => exact ⟨v, hv, by simpa using he⟩
        · simp at he
      · rfl


/-- C6 (counterexample): with the limit switched on and a negative
`maxManualBandwidth`, the line `W` (no payload) reads as the number 0, and
`0 / 1000 > -1`, yet nothing is emitted; the line `Wabc`, whose stripped payload
is empty as well, does emit `W0\n`. -/
theorem guard_empty_payload_no_emission :
    startsWith "W".data
      ({ guardState with maxManualBandwidth := -1 } : State).bandwidthInterceptValue.data = true ∧
    ({ guardState with maxManualBandwidth := -1 } : State).disablePlugin = false ∧
    ({ guardState with maxManualBandwidth := -1 } : State).limitManualBandwidth = true ∧
    digitsToNumber (String.mk (stripTrailingNonDigits
      (("W".data.drop 1).filter fun c => c ≠ ' '))) = some 0 ∧
    (0 : ℚ) / 1000 > ({ guardState with maxManualBandwidth := -1 } : State).maxManualBandwidth ∧
    (handleData digitsToNumber { guardState with maxManualBandwidth := -1 } "W").emitted = [] ∧
    (handleData digitsToNumber { guardState with maxManualBandwidth := -1 } "Wabc").emitted =
      ["W0\n"] := by
  have hsW : splitLines "W".data = ["W".data] := by decide
  have hsA : splitLines "Wabc".data = ["Wabc".data] := by decide
  have hpW : startsWith "W".data "W".data = true := by decide
  have hpA : startsWith "Wabc".data "W".data = true := by decide
  have hwW : (("W".data.drop 1).filter fun c => c ≠ ' ') = [] := by decide
  have hwA : (("Wabc".data.drop 1).filter fun c => c ≠ ' ') = "abc".data := by decide
  have hst : stripTrailingNonDigits "abc".data = [] := by decide
  have hz : digitsToNumber (String.mk []) = some 0 := by
    simp [digitsToNumber, digitsValue]
  refine ⟨hpW, rfl, rfl, ?_, ?_, ?_, ?_⟩
  · rw [hwW]; exact hz
  · norm_num [guardState]
  · simp only [handleData, hsW, handleDataLoop, guardState, initialState, hpW, if_true,
      interceptLine, hwW]
    rfl
  · simp only [handleData, hsA, handleDataLoop, guardState, initialState, hpA, if_true,
      interceptLine, hwA, hst, exceedsMaximum, hz]
    norm_num +decide [sendCommandToClient_eq]

/-- C6 (amended, witness): with `limitManualBandwidth = true` and
`maxManualBandwidth = 151`, the chunk `W200000 ` makes the guard emit `W0\n`
exactly once and the chunk `W100000` makes it emit nothing. -/
theorem guard_line_witness :
    (handleData digitsToNumber guardState "W200000 ").emitted = ["W0\n"] ∧
    (handleData digitsToNumber guardState "W100000").emitted = [] := by
  have hs2 : splitLines "W200000 ".data = ["W200000 ".data] := by decide
  have hs1 : splitLines "W100000".data = ["W100000".data] := by decide
  have hp2 : startsWith "W200000 ".data guardState.bandwidthInterceptValue.data = true := by
    decide
  have hp1 : startsWith "W100000".data guardState.bandwidthInterceptValue.data = true := by
    decide
  have hw2 : stripTrailingNonDigits (("W200000 ".data.drop 1).filter fun c => c ≠ ' ') =
      "200000".data := by decide
  have hw1 : stripTrailingNonDigits (("W100000".data.drop 1).filter fun c => c ≠ ' ') =
      "100000".data := by decide
  have hn2 : (("W200000 ".data.drop 1).filter fun c => c ≠ ' ') ≠ [] := by decide
  have hv2 : digitsToNumber (String.mk "200000".data) = some 200000 := by
    have : digitsValue "200000".data = 200000 := by decide
    simp +decide [digitsToNumber, this]
  have hv1 : digitsToNumber (String.mk "100000".data) = some 100000 := by
    have : digitsValue "100000".data = 100000 := by decide
    simp +decide [digitsToNumber, this]
  constructor
  · rw [handleData, hs2]
    refine (guard_line digitsToNumber guardState _ [] hp2).1 ⟨hn2, rfl, rfl, 200000, ?_, ?_⟩
    · rw [hw2]; exact hv2
    · norm_num [guardState, initialState]
  · rw [handleData, hs1]
    refine (guard_line digitsToNumber guardState _ [] hp1).2 ?_
    rintro ⟨_, _, _, v, hv, hgt⟩
    rw [hw1, hv1] at hv
    cases hv
    norm_num [guardState, initialState] at hgt

/-- C7 (counterexample): in the chunk `W100000\nW200000` the second line starts
with the letter and its value 200 exceeds 151, with the limit enabled and the
plugin not disabled, yet the guard emits nothing: the loop stops at the first
line that starts with the letter. -/
theorem guard_second_line_not_inspected :
    splitLines "W100000\nW200000".data = ["W100000".data, "W200000".data] ∧
    startsWith "W200000".data guardState.bandwidthInterceptValue.data = true ∧
    guardState.disablePlugin = false ∧ guardState.limitManualBandwidth = true ∧
    exceedsMaximum digitsToNumber
      (stripTrailingNonDigits (("W200000".data.drop 1).filter fun c => c ≠ ' '))
      guardState.maxManualBandwidth = true ∧
    (handleData digitsToNumber guardState "W100000\nW200000").emitted = [] := by
  have hs : splitLines "W100000\nW200000".data = ["W100000".data, "W200000".data] := by decide
  have hp1 : startsWith "W100000".data guardState.bandwidthInterceptValue.data = true := by
    decide
  have hw1 : stripTrailingNonDigits (("W100000".data.drop 1).filter fun c => c ≠ ' ') =
      "100000".data := by decide
  have hw2 : stripTrailingNonDigits (("W200000".data.drop 1).filter fun c => c ≠ ' ') =
      "200000".data := by decide
  have hv2 : digitsToNumber (String.mk "200000".data) = some 200000 := by
    have : digitsValue "200000".data = 200000 := by decide
    simp +decide [digitsToNumber, this]
  have hv1 : digitsToNumber (String.mk "100000".data) = some 100000 := by
    have : digitsValue "100000".data = 100000 := by decide
    simp +decide [digitsToNumber, this]
  refine ⟨hs, by decide, rfl, rfl, ?_, ?_⟩
  · rw [hw2]
    simp only [exceedsMaximum, hv2]
    norm_num [guardState, initialState]
  · rw [handleData, hs]
    simp only [handleDataLoop, hp1, if_true, interceptLine, hw1, exceedsMaximum, hv1]
    norm_num [guardState, initialState]

/-- C7 (amended): the guard scans the lines of a chunk in order up to the first
line that starts with the configured letter; that line alone is inspected (and
may cause the corrective emission), the lines after it are not looked at, and a
chunk without such a line changes nothing. -/
theorem guard_first_prefixed_line_only (toNumber : String → Option ℚ) (s : State)
    (receivedData : String) :
    handleData toNumber s receivedData =
      match (splitLines receivedData.data).find?
          fun l => startsWith l s.bandwidthInterceptValue.data with
      | some l => interceptLine toNumber s l
      | none => s :=
  handleDataLoop_find toNumber s (splitLines receivedData.data)


/-! ## Configuration healing -/

theorem Field.orDefault_of_present {α : Type} (v d : Field α) (h : v.present = true) :
    v.orDefault d = v := by
  cases v <;> simp_all [Field.orDefault, Field.present]

theorem Field.orDefault_of_absent {α : Type} (v d : Field α) (h : v.present = false) :
    v.orDefault d = d := by
  cases v <;> simp_all [Field.orDefault, Field.present]

theorem Field.orDefault_val {α : Type} (a : α) (d : Field α) :
    (Field.val a).orDefault d = .val a := rfl

theorem healLoop_fields (keys : List Key) :
    ∀ (c : ConfigData) (m : Bool),
      (healLoop c m keys).1.frequencies =
        (if Key.frequencies ∈ keys then c.frequencies.orDefault defaultSettings.frequencies
          else c.frequencies) ∧
      (healLoop c m keys).1.tolerance =
        (if Key.tolerance ∈ keys then c.tolerance.orDefault defaultSettings.tolerance
          else c.tolerance) ∧
      (healLoop c m keys).1.limitManualBandwidth =
        (if Key.limitManualBandwidth ∈ keys then
          c.limitManualBandwidth.orDefault defaultSettings.limitManualBandwidth
          else c.limitManualBandwidth) ∧
      (healLoop c m keys).1.maxManualBandwidth =
        (if Key.maxManualBandwidth ∈ keys then
          c.maxManualBandwidth.orDefault defaultSettings.maxManualBandwidth
          else c.maxManualBandwidth) ∧
      (healLoop c m keys).1.bandwidthInterceptValue =
        (if Key.bandwidthInterceptValue ∈ keys then
          c.bandwidthInterceptValue.orDefault defaultSettings.bandwidthInterceptValue
          else c.bandwidthInterceptValue) ∧
      (healLoop c m keys).1.disablePlugin =
        (if Key.disablePlugin ∈ keys then c.disablePlugin.orDefault defaultSettings.disablePlugin
          else c.disablePlugin) ∧
      (healLoop c m keys).2 = (m || keys.any fun k => !c.hasKey k) := by
  induction keys with
  | nil => intro c m; simp [healLoop]
  | cons k rest ih =>
    intro c m
    by_cases hk : c.hasKey k = true
    · have hstep : healLoop c m (k :: rest) = healLoop c m rest := by
        simp [healLoop, hk]
      rw [hstep]
      obtain ⟨h1, h2, h3, h4, h5, h6, h7⟩ := ih c m
      rw [h1, h2, h3, h4, h5, h6, h7]
      cases k <;> simp only [ConfigData.hasKey] at hk <;>
        simp [List.mem_cons, Field.orDefault_of_present, hk, ConfigData.hasKey]
    · have hk' : c.hasKey k = false := by simpa using hk
      have hstep : healLoop c m (k :: rest) =
          healLoop (c.copyKey defaultSettings k) true rest := by
        simp [healLoop, hk']
      rw [hstep]
      obtain ⟨h1, h2, h3, h4, h5, h6, h7⟩ := ih (c.copyKey defaultSettings k) true
      rw [h1, h2, h3, h4, h5, h6, h7]
      cases k <;> simp only [ConfigData.hasKey] at hk' <;>
        simp [List.mem_cons, Field.orDefault_of_absent _ _ hk', hk', ConfigData.hasKey,
          ConfigData.copyKey, defaultSettings, Field.orDefault_val]

theorem healLoop_eq (c : ConfigData) :
    healLoop c false defaultSettingsKeys =
      (healedConfig c, defaultSettingsKeys.any fun k => !c.hasKey k) := by
  obtain ⟨h1, h2, h3, h4, h5, h6, h7⟩ := healLoop_fields defaultSettingsKeys c false
  have hc : (healLoop c false defaultSettingsKeys).1 = healedConfig c := by
    rcases hh : (healLoop c false defaultSettingsKeys).1 with ⟨a1, a2, a3, a4, a5, a6⟩
    rw [hh] at h1 h2 h3 h4 h5 h6
    simp only [defaultSettingsKeys, List.mem_cons, true_or, or_true, if_true] at h1 h2 h3 h4 h5 h6
    simp [healedConfig, h1, h2, h3, h4, h5, h6]
  exact Prod.ext hc (by simpa using h7)


/-! ## Loading -/

theorem recheckCurrentFrequency_frame (s : State) :
    (recheckCurrentFrequency s).mutedFrequencies = s.mutedFrequencies ∧
    (recheckCurrentFrequency s).freqTolerance = s.freqTolerance ∧
    (recheckCurrentFrequency s).fileWrites = s.fileWrites ∧
    (recheckCurrentFrequency s).disablePlugin = s.disablePlugin ∧
    (recheckCurrentFrequency s).currentFrequencyRounded = s.currentFrequencyRounded := by
  unfold recheckCurrentFrequency
  split_ifs <;>
    simp [(sendToClient_frame _ _ _).2.2.2.2.2.1, (sendToClient_frame _ _ _).2.2.2.2.2.2.1,
      (sendToClient_frame _ _ _).2.2.2.2.2.2.2.1, (sendToClient_frame _ _ _).2.1,
      (sendToClient_frame _ _ _).2.2.2.2.2.2.2.2.1,
      (applyVolumeChange_frame _ _ _).2.1, (applyVolumeChange_frame _ _ _).2.2.2.2.1,
      (applyVolumeChange_frame _ _ _).2.2.2.2.2.1, (applyVolumeChange_frame _ _ _).2.2.2.2.2.2.1,
      (applyVolumeChange_frame _ _ _).2.2.2.2.2.2.2.1]

theorem recheckCurrentFrequency_currentStatus (s : State) :
    (recheckCurrentFrequency s).currentStatus =
      if s.disablePlugin then s.currentStatus
      else resolveLoop s.currentFrequencyRounded s.freqTolerance s.mutedFrequencies := by
  unfold recheckCurrentFrequency
  split_ifs <;> simp [(sendToClient_frame _ _ _).1, (applyVolumeChange_frame _ _ _).1]

theorem numberOr_orDefault (v : Field ℚ) (d : ℚ) : numberOr (v.orDefault (.val d)) d = numberOr v d := by
  cases v <;> simp [Field.orDefault, numberOr]

theorem boolOr_orDefault (v : Field Bool) (d : Bool) : boolOr (v.orDefault (.val d)) d = boolOr v d := by
  cases v <;> cases d <;> simp [Field.orDefault, boolOr]

theorem stringOr_orDefault (v : Field String) (d : String) :
    stringOr (v.orDefault (.val d)) d = stringOr v d := by
  cases v <;> simp [Field.orDefault, stringOr]

theorem entriesOr_orDefault (v : Field (List Entry)) :
    entriesOr (v.orDefault (.val [])) = entriesOr v := by
  cases v <;> simp [Field.orDefault, entriesOr]

/-- The state in which `loadMutedFrequencies` parses the entries: the document
has been rewritten if a key was missing and the five scalar variables have been
assigned. -/
theorem loadMutedFrequencies_eq (s : State) (c : ConfigData) (isReloaded : Bool) :
    loadMutedFrequencies s (some c) isReloaded =
      match parseItems (entriesOr c.frequencies) with
      | .error _ =>
        loadFailed
          { s with
            fileWrites :=
              if (defaultSettingsKeys.any fun k => !c.hasKey k) then
                s.fileWrites ++ [healedConfig c]
              else s.fileWrites
            freqTolerance := numberOr c.tolerance 0.05
            limitManualBandwidth := boolOr c.limitManualBandwidth false
            maxManualBandwidth := numberOr c.maxManualBandwidth 151
            bandwidthInterceptValue := stringOr c.bandwidthInterceptValue "W"
            disablePlugin := boolOr c.disablePlugin false }
      | .ok items =>
        if isReloaded && decide (s.currentFrequencyRounded > 0) then
          recheckCurrentFrequency
            { s with
              fileWrites :=
                if (defaultSettingsKeys.any fun k => !c.hasKey k) then
                  s.fileWrites ++ [healedConfig c]
                else s.fileWrites
              freqTolerance := numberOr c.tolerance 0.05
              limitManualBandwidth := boolOr c.limitManualBandwidth false
              maxManualBandwidth := numberOr c.maxManualBandwidth 151
              bandwidthInterceptValue := stringOr c.bandwidthInterceptValue "W"
              disablePlugin := boolOr c.disablePlugin false
              mutedFrequencies := items }
        else
          { s with
            fileWrites :=
              if (defaultSettingsKeys.any fun k => !c.hasKey k) then
                s.fileWrites ++ [healedConfig c]
              else s.fileWrites
            freqTolerance := numberOr c.tolerance 0.05
            limitManualBandwidth := boolOr c.limitManualBandwidth false
            maxManualBandwidth := numberOr c.maxManualBandwidth 151
            bandwidthInterceptValue := stringOr c.bandwidthInterceptValue "W"
            disablePlugin := boolOr c.disablePlugin false
            mutedFrequencies := items } := by
  simp only [loadMutedFrequencies, healLoop_eq]
  have e1 : entriesOr (healedConfig c).frequencies = entriesOr c.frequencies :=
    entriesOr_orDefault _
  have e2 : numberOr (healedConfig c).tolerance 0.05 = numberOr c.tolerance 0.05 :=
    numberOr_orDefault _ _
  have e3 : boolOr (healedConfig c).limitManualBandwidth false =
      boolOr c.limitManualBandwidth false := boolOr_orDefault _ _
  have e4 : numberOr (healedConfig c).maxManualBandwidth 151 =
      numberOr c.maxManualBandwidth 151 := numberOr_orDefault _ _
  have e5 : stringOr (healedConfig c).bandwidthInterceptValue "W" =
      stringOr c.bandwidthInterceptValue "W" := stringOr_orDefault _ _
  have e6 : boolOr (healedConfig c).disablePlugin false = boolOr c.disablePlugin false :=
    boolOr_orDefault _ _
  rw [e1, e2, e3, e4, e5, e6]
  cases parseItems (entriesOr c.frequencies) with
  | error e => split_ifs <;> rfl
  | ok items => split_ifs <;> rfl


theorem parseItem_mode_valid (e : Entry) (r : FreqItem) (h : parseItem e = .ok (some r)) :
    r.mode ∈ validModes := by
  rcases e with q | ⟨_ | f, _ | m | _ | _⟩ | _ | _ <;> simp [parseItem] at h
  · subst h; simp [validModes]
  · subst h; simp [validModes]
  · subst h
    show (if _ then _ else _) ∈ validModes
    split_ifs <;> first | assumption | simp [validModes]
  · subst h; simp [validModes]

theorem parseItems_mode_valid :
    ∀ (entries : List Entry) (items : List FreqItem), parseItems entries = .ok items →
      ∀ r ∈ items, r.mode ∈ validModes := by
  intro entries
  induction entries with
  | nil =>
    intro items h r hr
    simp [parseItems] at h
    subst h
    simp at hr
  | cons e rest ih =>
    intro items h r hr
    simp only [parseItems] at h
    cases he : parseItem e with
    | error x => rw [he] at h; simp at h
    | ok o =>
      rw [he] at h
      cases hrest : parseItems rest with
      | error x => rw [hrest] at h; simp at h
      | ok prest =>
        rw [hrest] at h
        simp only [Except.ok.injEq] at h
        subst h
        cases o with
        | none => exact ih prest hrest r hr
        | some x =>
          rcases List.mem_cons.mp hr with hx | hx
          · subst hx; exact parseItem_mode_valid e r he
          · exact ih prest hrest r hx

theorem parseItems_congr (before after : List Entry) (a b : Entry)
    (h : parseItem a = parseItem b) :
    parseItems (before ++ a :: after) = parseItems (before ++ b :: after) := by
  induction before with
  | nil => simp [parseItems, h]
  | cons e rest ih => simp [parseItems, ih]

theorem loadMutedFrequencies_table_modes (s : State) (parsed : Option ConfigData)
    (isReloaded : Bool) :
    ∀ r ∈ (loadMutedFrequencies s parsed isReloaded).mutedFrequencies, r.mode ∈ validModes := by
  cases parsed with
  | none => simp [loadMutedFrequencies, loadFailed]
  | some c =>
    rw [loadMutedFrequencies_eq]
    cases hp : parseItems (entriesOr c.frequencies) with
    | error e => simp [loadFailed]
    | ok items =>
      have hv := parseItems_mode_valid _ _ hp
      simp only
      by_cases hr : (isReloaded && decide (s.currentFrequencyRounded > 0)) = true
      · rw [if_pos hr, (recheckCurrentFrequency_frame _).1]; exact hv
      · rw [if_neg hr]; exact hv

/-- C8: after `loadMutedFrequencies` every rule of the active table has its mode
among `M`, `A`, `S`, `D`; a bare number becomes the rule `{freq, mode M}`; an
object entry whose mode is not recognised (its upper-case form is none of the
four letters) is parsed to the same rule as the same entry with mode `M`, so the
two configurations load the same table and the same status, and the tables
resolve identically at every frequency and tolerance. -/
theorem load_modes_normalized (s : State) (c : ConfigData) (isReloaded : Bool)
    (before after : List Entry) (freq : ℚ) (mode : String) :
    (∀ (parsed : Option ConfigData),
      ∀ r ∈ (loadMutedFrequencies s parsed isReloaded).mutedFrequencies,
        r.mode = "M" ∨ r.mode = "A" ∨ r.mode = "S" ∨ r.mode = "D") ∧
    (∀ q : ℚ, parseItem (.number q) = .ok (some { freq := q, mode := "M" })) ∧
    (validModes.contains (toUpperCase mode) = false →
      parseItem (.object (some freq) (.text mode)) = .ok (some { freq := freq, mode := "M" }) ∧
      parseItem (.object (some freq) (.text mode)) =
        parseItem (.object (some freq) (.text "M")) ∧
      (loadMutedFrequencies s
        (some { c with frequencies := .val (before ++ .object (some freq) (.text mode) :: after) })
        isReloaded).mutedFrequencies =
      (loadMutedFrequencies s
        (some { c with frequencies := .val (before ++ .object (some freq) (.text "M") :: after) })
        isReloaded).mutedFrequencies ∧
      (loadMutedFrequencies s
        (some { c with frequencies := .val (before ++ .object (some freq) (.text mode) :: after) })
        isReloaded).currentStatus =
      (loadMutedFrequencies s
        (some { c with frequencies := .val (before ++ .object (some freq) (.text "M") :: after) })
        isReloaded).currentStatus ∧
      ∀ f t : ℚ,
        resolveLoop f t (loadMutedFrequencies s
          (some { c with
            frequencies := .val (before ++ .object (some freq) (.text mode) :: after) })
          isReloaded).mutedFrequencies =
        resolveLoop f t (loadMutedFrequencies s
          (some { c with
            frequencies := .val (before ++ .object (some freq) (.text "M") :: after) })
          isReloaded).mutedFrequencies) := by
  refine ⟨?_, fun q => rfl, ?_⟩
  · intro parsed r hr
    have h := loadMutedFrequencies_table_modes s parsed isReloaded r hr
    simpa [validModes] using h
  · intro hm
    have hx : parseItem (.object (some freq) (.text mode)) =
        .ok (some { freq := freq, mode := "M" }) := by
      by_cases he : mode = ""
      · simp +decide [parseItem, he, validModes]
      · have hm' : toUpperCase mode ∉ validModes := by simpa using hm
        simp [parseItem, he, hm']
    have hM : parseItem (.object (some freq) (.text "M")) =
        .ok (some { freq := freq, mode := "M" }) := by
      simp +decide [parseItem, validModes]
    have hpi := parseItems_congr before after _ _ (hx.trans hM.symm)
    have htab :
        (loadMutedFrequencies s
          (some { c with
            frequencies := .val (before ++ .object (some freq) (.text mode) :: after) })
          isReloaded).mutedFrequencies =
        (loadMutedFrequencies s
          (some { c with
            frequencies := .val (before ++ .object (some freq) (.text "M") :: after) })
          isReloaded).mutedFrequencies ∧
        (loadMutedFrequencies s
          (some { c with
            frequencies := .val (before ++ .object (some freq) (.text mode) :: after) })
          isReloaded).currentStatus =
        (loadMutedFrequencies s
          (some { c with
            frequencies := .val (before ++ .object (some freq) (.text "M") :: after) })
          isReloaded).currentStatus := by
      rw [loadMutedFrequencies_eq, loadMutedFrequencies_eq]
      simp only [entriesOr, hpi]
      cases parseItems (before ++ .object (some freq) (.text "M") :: after) with
      | error e => simp [loadFailed]
      | ok items =>
        simp only
        by_cases hr : (isReloaded && decide (s.currentFrequencyRounded > 0)) = true
        · rw [if_pos hr, if_pos hr]
          simp [(recheckCurrentFrequency_frame _).1, recheckCurrentFrequency_currentStatus]
        · rw [if_neg hr, if_neg hr]
          exact ⟨rfl, rfl⟩
    refine ⟨hx, hx.trans hM.symm, htab.1, htab.2, fun f t => ?_⟩
    rw [htab.1]

/-- C8 (witness): the mode letter `x` is not recognised; the entry
`{freq: 88.1, mode: "x"}` is loaded as the rule `{88.1, M}`, and so is the bare
number 88.1. -/
theorem load_modes_normalized_witness :
    validModes.contains (toUpperCase "x") = false ∧
    parseItem (.object (some 88.1) (.text "x")) = .ok (some { freq := 88.1, mode := "M" }) ∧
    parseItem (.number 88.1) = .ok (some { freq := 88.1, mode := "M" }) ∧
    (loadMutedFrequencies (initialState 0.8)
      (some { defaultSettings with
        frequencies := .val ([] ++ .object (some 88.1) (.text "x") :: []) })
      false).mutedFrequencies =
    (loadMutedFrequencies (initialState 0.8)
      (some { defaultSettings with
        frequencies := .val ([] ++ .object (some 88.1) (.text "M") :: []) })
      false).mutedFrequencies := by
  have hx : validModes.contains (toUpperCase "x") = false := by decide
  have h := load_modes_normalized (initialState 0.8) defaultSettings false [] [] 88.1 "x"
  exact ⟨hx, (h.2.2 hx).1, h.2.1 88.1, (h.2.2 hx).2.2.1⟩


theorem loadMutedFrequencies_fileWrites (s : State) (c : ConfigData) (isReloaded : Bool) :
    (loadMutedFrequencies s (some c) isReloaded).fileWrites =
      if (defaultSettingsKeys.any fun k => !c.hasKey k) then s.fileWrites ++ [healedConfig c]
      else s.fileWrites := by
  rw [loadMutedFrequencies_eq]
  cases parseItems (entriesOr c.frequencies) with
  | error e => simp [loadFailed]
  | ok items =>
    simp only
    by_cases hr : (isReloaded && decide (s.currentFrequencyRounded > 0)) = true
    · rw [if_pos hr, (recheckCurrentFrequency_frame _).2.2.1]
    · rw [if_neg hr]

theorem any_absent_iff (c : ConfigData) :
    (defaultSettingsKeys.any fun k => !c.hasKey k) = true ↔ ∃ k, c.hasKey k = false := by
  constructor
  · intro h
    obtain ⟨k, _, hk⟩ := List.any_eq_true.mp h
    exact ⟨k, by simpa using hk⟩
  · rintro ⟨k, hk⟩
    refine List.any_eq_true.mpr ⟨k, ?_, by simp [hk]⟩
    cases k <;> simp [defaultSettingsKeys]

/-- C9: schema healing in `loadMutedFrequencies`.  For every parsed configuration
object the healed object contains every key of `defaultSettings`, a key that was
present keeps its value, an absent key gets its default value, and the healed
document is written to storage if and only if at least one key was absent (one
write of the healed object if so, no write otherwise). -/
theorem load_heals_schema (s : State) (c : ConfigData) (isReloaded : Bool) :
    (∀ k, (healLoop c false defaultSettingsKeys).1.hasKey k = true) ∧
    (∀ k, c.hasKey k = true → (healLoop c false defaultSettingsKeys).1.sameAt c k) ∧
    (∀ k, c.hasKey k = false →
      (healLoop c false defaultSettingsKeys).1.sameAt defaultSettings k) ∧
    ((∃ k, c.hasKey k = false) →
      (loadMutedFrequencies s (some c) isReloaded).fileWrites =
        s.fileWrites ++ [(healLoop c false defaultSettingsKeys).1]) ∧
    ((∀ k, c.hasKey k = true) →
      (loadMutedFrequencies s (some c) isReloaded).fileWrites = s.fileWrites) := by
  rw [healLoop_eq]
  refine ⟨?_, ?_, ?_, ?_, ?_⟩
  · intro k
    rcases c with ⟨fr, tol, lim, mx, biv, dis⟩
    cases k
    · cases fr <;> rfl
    · cases tol <;> rfl
    · cases lim <;> rfl
    · cases mx <;> rfl
    · cases biv <;> rfl
    · cases dis <;> rfl
  · intro k hk
    cases k <;> simp only [ConfigData.hasKey] at hk <;>
      simp [ConfigData.sameAt, healedConfig, Field.orDefault_of_present _ _ hk]
  · intro k hk
    cases k <;> simp only [ConfigData.hasKey] at hk <;>
      simp [ConfigData.sameAt, healedConfig, Field.orDefault_of_absent _ _ hk]
  · intro h
    rw [loadMutedFrequencies_fileWrites, if_pos ((any_absent_iff c).mpr h)]
  · intro h
    have hn : ¬ (defaultSettingsKeys.any fun k => !c.hasKey k) = true := by
      rw [any_absent_iff]
      rintro ⟨k, hk⟩
      rw [h k] at hk
      exact absurd hk (by simp)
    rw [loadMutedFrequencies_fileWrites, if_neg hn]

/-- C9 (witness): a configuration without the `tolerance` key is loaded with the
tolerance 0.05 in memory, and the document is rewritten once, with `tolerance`
set to 0.05 and the other keys as they were. -/
theorem load_heals_schema_witness :
    (loadMutedFrequencies (initialState 0.8)
      (some { scenarioConfig with tolerance := .absent }) false).freqTolerance = 0.05 ∧
    (loadMutedFrequencies (initialState 0.8)
      (some { scenarioConfig with tolerance := .absent }) false).fileWrites =
      [scenarioConfig] ∧
    scenarioConfig.tolerance = .val 0.05 := by
  have h := load_heals_schema (initialState 0.8) { scenarioConfig with tolerance := .absent }
    false
  refine ⟨?_, ?_, rfl⟩
  · rw [loadMutedFrequencies_eq]
    simp [scenarioConfig, defaultSettings, entriesOr, parseItems, parseItem, numberOr]
  · rw [h.2.2.2.1 ⟨.tolerance, rfl⟩, healLoop_eq]
    simp [healedConfig, scenarioConfig, defaultSettings, Field.orDefault, initialState]

/-- C10 (counterexample): in the state right after start-up (rounded frequency
0, status `normal`), a successful reload with the plugin enabled loads the rule
`0.04 M`, whose window contains 0; the resolution of the current frequency is
`muted`, but the status stays `normal`. -/
theorem reload_at_zero_not_rechecked :
    (loadMutedFrequencies (initialState 0.8)
      (some { defaultSettings with frequencies := .val [.number 0.04] }) true).disablePlugin
      = false ∧
    (loadMutedFrequencies (initialState 0.8)
      (some { defaultSettings with frequencies := .val [.number 0.04] }) true).mutedFrequencies
      = [⟨0.04, "M"⟩] ∧
    (loadMutedFrequencies (initialState 0.8)
      (some { defaultSettings with frequencies := .val [.number 0.04] }) true).freqTolerance
      = 0.05 ∧
    (loadMutedFrequencies (initialState 0.8)
      (some { defaultSettings with frequencies := .val [.number 0.04] })
      true).currentFrequencyRounded = 0 ∧
    resolveLoop 0 0.05 [⟨0.04, "M"⟩] = "muted" ∧
    (loadMutedFrequencies (initialState 0.8)
      (some { defaultSettings with frequencies := .val [.number 0.04] }) true).currentStatus
      = "normal" := by
  have hl : loadMutedFrequencies (initialState 0.8)
      (some { defaultSettings with frequencies := .val [.number 0.04] }) true =
      { initialState 0.8 with mutedFrequencies := [⟨0.04, "M"⟩] } := by
    rw [loadMutedFrequencies_eq]
    simp [defaultSettings, entriesOr, parseItems, parseItem, numberOr, boolOr, stringOr,
      initialState, defaultSettingsKeys, ConfigData.hasKey, Field.present]
  rw [hl]
  refine ⟨rfl, rfl, rfl, rfl, ?_, rfl⟩
  norm_num +decide [resolveLoop, epsilon, getStatusFromMode, abs_le]

/-- C10 (amended): after a configuration reload that succeeds (no entry makes
the parsing throw) and leaves the plugin enabled, in a state whose rounded
frequency is greater than 0, the current status equals the resolution of
`currentFrequencyRounded` against the newly loaded rule table and tolerance. -/
theorem reload_rechecks_current_frequency (s : State) (c : ConfigData) (items : List FreqItem)
    (hparse : parseItems (entriesOr c.frequencies) = .ok items)
    (henabled : boolOr c.disablePlugin false = false)
    (hfreq : s.currentFrequencyRounded > 0) :
    (loadMutedFrequencies s (some c) true).mutedFrequencies = items ∧
    (loadMutedFrequencies s (some c) true).freqTolerance = numberOr c.tolerance 0.05 ∧
    (loadMutedFrequencies s (some c) true).disablePlugin = false ∧
    (loadMutedFrequencies s (some c) true).currentFrequencyRounded =
      s.currentFrequencyRounded ∧
    (loadMutedFrequencies s (some c) true).currentStatus =
      resolveLoop (loadMutedFrequencies s (some c) true).currentFrequencyRounded
        (loadMutedFrequencies s (some c) true).freqTolerance
        (loadMutedFrequencies s (some c) true).mutedFrequencies := by
  have hl := loadMutedFrequencies_eq s c true
  rw [hparse] at hl
  simp only [Bool.true_and, decide_eq_true hfreq, if_true] at hl
  rw [hl]
  obtain ⟨h1, h2, _, h4, h5⟩ := recheckCurrentFrequency_frame
    { s with
      fileWrites :=
        if (defaultSettingsKeys.any fun k => !c.hasKey k) then s.fileWrites ++ [healedConfig c]
        else s.fileWrites
      freqTolerance := numberOr c.tolerance 0.05
      limitManualBandwidth := boolOr c.limitManualBandwidth false
      maxManualBandwidth := numberOr c.maxManualBandwidth 151
      bandwidthInterceptValue := stringOr c.bandwidthInterceptValue "W"
      disablePlugin := boolOr c.disablePlugin false
      mutedFrequencies := items }
  rw [recheckCurrentFrequency_currentStatus, h1, h2, h4, h5]
  simp [henabled]

/-- C10 (amended, witness): the scenario state tuned to 90.0 (status `normal`)
reloads a configuration whose only rule is `90.0 A`: the status becomes
`attenuated` although the frequency did not change. -/
theorem reload_rechecks_current_frequency_witness :
    (onTextMessage scenarioState (some 90.0)).currentStatus = "normal" ∧
    (loadMutedFrequencies (onTextMessage scenarioState (some 90.0))
      (some { defaultSettings with frequencies := .val [.object (some 90.0) (.text "a")] })
      true).currentStatus = "attenuated" := by
  have h2 : toFixed2 90.0 = 90 := by norm_num [toFixed2, nearestInt]
  have h1 : onTextMessage scenarioState (some 90.0) =
      { initialState 0.8 with
        textSocket := some .OPEN, extraSocket := some .OPEN
        mutedFrequencies := [⟨88.0, "M"⟩]
        currentFrequency := 90.0, currentFrequencyRounded := 90
        previousFrequencyRounded := 90 } := by
    rw [scenarioState_eq]
    simp only [onTextMessage, h2]
    norm_num +decide [initialState, resolveLoop, epsilon, getStatusFromMode, abs_le]
  have hp : parseItems (entriesOr
      ({ defaultSettings with
        frequencies := .val [.object (some 90.0) (.text "a")] } : ConfigData).frequencies) =
      .ok [⟨90.0, "A"⟩] := by
    have hu : toUpperCase "a" = "A" := by decide
    simp +decide [entriesOr, parseItems, parseItem, hu, validModes]
  have h := reload_rechecks_current_frequency (onTextMessage scenarioState (some 90.0))
    { defaultSettings with frequencies := .val [.object (some 90.0) (.text "a")] }
    [⟨90.0, "A"⟩] hp rfl (by rw [h1]; norm_num)
  refine ⟨by rw [h1]; rfl, ?_⟩
  rw [h.2.2.2.2, h.2.2.2.1, h.2.1, h.1, h1]
  norm_num +decide [resolveLoop, epsilon, getStatusFromMode, abs_le, numberOr, defaultSettings]


/-! ## Failing loads, tolerance, connections -/

theorem parseItems_error_of_mem (entries : List Entry) (entry : Entry) (x : String)
    (hmem : entry ∈ entries) (hthrow : parseItem entry = .error x) :
    ∃ y, parseItems entries = .error y := by
  induction entries with
  | nil => simp at hmem
  | cons e rest ih =>
    simp only [parseItems]
    cases he : parseItem e with
    | error z => exact ⟨z, rfl⟩
    | ok o =>
      have hin : entry ∈ rest := by
        rcases List.mem_cons.mp hmem with h | h
        · subst h
          rw [hthrow] at he
          cases he
        · exact h
      obtain ⟨y, hy⟩ := ih hin
      rw [hy]
      exact ⟨y, rfl⟩

theorem loadMutedFrequencies_freqTolerance (s : State) (c : ConfigData) (isReloaded : Bool)
    (items : List FreqItem) (hparse : parseItems (entriesOr c.frequencies) = .ok items) :
    (loadMutedFrequencies s (some c) isReloaded).freqTolerance = numberOr c.tolerance 0.05 := by
  rw [loadMutedFrequencies_eq, hparse]
  simp only
  by_cases hr : (isReloaded && decide (s.currentFrequencyRounded > 0)) = true
  · rw [if_pos hr, (recheckCurrentFrequency_frame _).2.1]
  · rw [if_neg hr]

/-- C11: `loadMutedFrequencies` fails soft.  When the persisted content cannot be
parsed (`JSON.parse` throws), and when an entry of `frequencies` makes the rule
parsing throw, the function still returns a state, in which the active rule
table is empty and the tolerance is the default 0.05. -/
theorem load_fails_soft (s : State) (c : ConfigData) (isReloaded : Bool) :
    ((loadMutedFrequencies s none isReloaded).mutedFrequencies = [] ∧
      (loadMutedFrequencies s none isReloaded).freqTolerance = 0.05) ∧
    ((∃ entry ∈ entriesOr c.frequencies, ∃ x, parseItem entry = .error x) →
      (loadMutedFrequencies s (some c) isReloaded).mutedFrequencies = [] ∧
      (loadMutedFrequencies s (some c) isReloaded).freqTolerance = 0.05) := by
  refine ⟨⟨rfl, rfl⟩, ?_⟩
  rintro ⟨entry, hmem, x, hx⟩
  obtain ⟨y, hy⟩ := parseItems_error_of_mem _ entry x hmem hx
  rw [loadMutedFrequencies_eq, hy]
  exact ⟨rfl, rfl⟩

/-- C11 (witness): the scenario state (table `88.0 M`) reloads a configuration
whose `frequencies` array holds `88.0` and `null`: reading `null.freq` throws,
and the load ends with the empty table and the tolerance 0.05; so does a reload
of content that is not JSON. -/
theorem load_fails_soft_witness :
    scenarioState.mutedFrequencies = [⟨88.0, "M"⟩] ∧
    parseItem .null = .error "Cannot read properties of null" ∧
    (loadMutedFrequencies scenarioState
      (some { defaultSettings with
        frequencies := .val [.number 88.0, .null], tolerance := .val 0.2 })
      true).mutedFrequencies = [] ∧
    (loadMutedFrequencies scenarioState
      (some { defaultSettings with
        frequencies := .val [.number 88.0, .null], tolerance := .val 0.2 })
      true).freqTolerance = 0.05 ∧
    (loadMutedFrequencies scenarioState none true).mutedFrequencies = [] := by
  have h := load_fails_soft scenarioState
    { defaultSettings with frequencies := .val [.number 88.0, .null], tolerance := .val 0.2 }
    true
  have hex : ∃ entry ∈ entriesOr
      ({ defaultSettings with
        frequencies := .val [.number 88.0, .null]
        tolerance := .val 0.2 } : ConfigData).frequencies,
      ∃ x, parseItem entry = .error x :=
    ⟨.null, by simp [entriesOr], _, rfl⟩
  refine ⟨?_, rfl, (h.2 hex).1, (h.2 hex).2, h.1.1⟩
  rw [scenarioState_eq]

/-- C13: after a load that succeeds, the tolerance in memory is the configured
`tolerance` when that is a non-zero number, and 0.05 when it is 0, `null` or
missing; so the tolerance in effect is never 0 and the matching window
`freqTolerance + 0.001` never shrinks to the bare slack. -/
theorem load_tolerance (s : State) (c : ConfigData) (isReloaded : Bool) (items : List FreqItem)
    (hparse : parseItems (entriesOr c.frequencies) = .ok items) :
    (∀ q : ℚ, c.tolerance = .val q → q ≠ 0 →
      (loadMutedFrequencies s (some c) isReloaded).freqTolerance = q) ∧
    ((c.tolerance = .val 0 ∨ c.tolerance = .null ∨ c.tolerance = .absent) →
      (loadMutedFrequencies s (some c) isReloaded).freqTolerance = 0.05) ∧
    (loadMutedFrequencies s (some c) isReloaded).freqTolerance ≠ 0 ∧
    (loadMutedFrequencies s (some c) isReloaded).freqTolerance + epsilon ≠ epsilon := by
  rw [loadMutedFrequencies_freqTolerance s c isReloaded items hparse]
  have hne : numberOr c.tolerance 0.05 ≠ 0 := by
    unfold numberOr
    split
    · split_ifs with h0
      · norm_num
      · exact h0
    · norm_num
  refine ⟨?_, ?_, hne, ?_⟩
  · intro q hq hq0
    simp [hq, numberOr, hq0]
  · rintro (h | h | h) <;> simp [h, numberOr]
  · intro h
    exact hne (by linarith)

/-- C13 (witness): a configured tolerance of 0.2 is in effect after the load, a
configured tolerance of 0 is replaced by 0.05. -/
theorem load_tolerance_witness :
    (loadMutedFrequencies (initialState 0.8)
      (some { scenarioConfig with tolerance := .val 0.2 }) false).freqTolerance = 0.2 ∧
    (loadMutedFrequencies (initialState 0.8)
      (some { scenarioConfig with tolerance := .val 0 }) false).freqTolerance = 0.05 := by
  have hp : ∀ t : Field ℚ, parseItems (entriesOr
      ({ scenarioConfig with tolerance := t } : ConfigData).frequencies) = .ok [⟨88.0, "M"⟩] := by
    intro t
    simp [scenarioConfig, entriesOr, parseItems, parseItem]
  exact ⟨(load_tolerance (initialState 0.8) { scenarioConfig with tolerance := .val 0.2 } false
      _ (hp _)).1 0.2 rfl (by norm_num),
    (load_tolerance (initialState 0.8) { scenarioConfig with tolerance := .val 0 } false
      _ (hp _)).2.1 (Or.inl rfl)⟩

/-- C12: a connect attempt made while the socket of the connection is
`CONNECTING` or `OPEN` changes nothing: no socket is constructed, no handler is
assigned and no timer is scheduled; this holds for `TextWebSocket` and for
`ExtraWebSocket`.  Hence a second attempt right after any attempt is without
effect, and an attempt constructs at most one socket. -/
theorem connect_while_active_noop (s : State) :
    ((s.textSocket = some .CONNECTING ∨ s.textSocket = some .OPEN) →
      TextWebSocket s = s ∧ (TextWebSocket s).connects = s.connects ∧
      (TextWebSocket s).handlers = s.handlers ∧ (TextWebSocket s).timers = s.timers) ∧
    ((s.extraSocket = some .CONNECTING ∨ s.extraSocket = some .OPEN) →
      ExtraWebSocket s = s ∧ (ExtraWebSocket s).connects = s.connects ∧
      (ExtraWebSocket s).handlers = s.handlers ∧ (ExtraWebSocket s).timers = s.timers) ∧
    TextWebSocket (TextWebSocket s) = TextWebSocket s ∧
    ExtraWebSocket (ExtraWebSocket s) = ExtraWebSocket s ∧
    (TextWebSocket s).connects.length ≤ s.connects.length + 1 ∧
    (ExtraWebSocket s).connects.length ≤ s.connects.length + 1 := by
  refine ⟨?_, ?_, ?_, ?_, ?_, ?_⟩
  · intro h
    have : TextWebSocket s = s := by
      rcases h with h | h <;> simp [TextWebSocket, h]
    rw [this]
    exact ⟨rfl, rfl, rfl, rfl⟩
  · intro h
    have : ExtraWebSocket s = s := by
      rcases h with h | h <;> simp [ExtraWebSocket, h]
    rw [this]
    exact ⟨rfl, rfl, rfl, rfl⟩
  · rcases h : s.textSocket with _ | (_ | _ | _ | _) <;> simp [TextWebSocket, h]
  · rcases h : s.extraSocket with _ | (_ | _ | _ | _) <;> simp [ExtraWebSocket, h]
  · rcases h : s.textSocket with _ | (_ | _ | _ | _) <;> simp [TextWebSocket, h]
  · rcases h : s.extraSocket with _ | (_ | _ | _ | _) <;> simp [ExtraWebSocket, h]

/-- C12 (witness): from the start-up state the first `TextWebSocket()` constructs
the `/text` socket and the second one, made while it is `CONNECTING`, changes
nothing; after the close event the next attempt constructs a second socket. -/
theorem connect_while_active_noop_witness :
    (TextWebSocket (initialState 0.8)).textSocket = some .CONNECTING ∧
    (TextWebSocket (initialState 0.8)).connects = ["/text"] ∧
    TextWebSocket (TextWebSocket (initialState 0.8)) = TextWebSocket (initialState 0.8) ∧
    ExtraWebSocket (ExtraWebSocket (initialState 0.8)) = ExtraWebSocket (initialState 0.8) ∧
    (TextWebSocket (textSocketClosed (TextWebSocket (initialState 0.8)))).connects =
      ["/text", "/text"] :=
  ⟨rfl, rfl,
    ((connect_while_active_noop (TextWebSocket (initialState 0.8))).1 (Or.inl rfl)).1,
    ((connect_while_active_noop (ExtraWebSocket (initialState 0.8))).2.1 (Or.inl rfl)).1,
    rfl⟩

end FrequencyMute
